import Mathlib

/-
Shallow embedding of result4js (src/index.ts).

The library is a two-variant result container: classes Success<S, E> and
Failure<S, E> (union type Result<S, E>), factory functions Ok and Err, and
the instance methods throw, throwMap, or, isOk, isErr.

Method bodies are embedded in the Except monad so that a JavaScript
`return v` becomes `Except.ok v` and a JavaScript `throw v` becomes
`Except.error v`.  A method that never reaches a throw statement therefore
always produces `Except.ok`.
-/

namespace Result4js

/-- The union type Result<S, E> = Success<S, E> | Failure<S, E>.
Success holds a field `data : S`; Failure holds a field `data : E`.
Each class also carries a private readonly discriminator `_tag`
("Success" or "Failure") that always coincides with the class of the
instance, so it is identified with the constructor here. -/
inductive Result (S E : Type) where
  | Success (data : S)
  | Failure (data : E)
  deriving DecidableEq

/-- Factory Ok: `function Ok(data) { return new Success(data); }`. -/
def Ok {S E : Type} (data : S) : Result S E := Result.Success data

/-- Factory Err: `function Err(error) { return new Failure(error); }`. -/
def Err {S E : Type} (error : E) : Result S E := Result.Failure error

/-- The mapper argument of throwMap, of TypeScript type
`string | ((data: E) => unknown)`: either a plain string value or a
callable; U is the (otherwise unknown) return type of the callable. -/
inductive Mapper (E U : Type) where
  | ofString (s : String)
  | ofFn (f : E → U)

namespace Result

variable {S E U T : Type}

/-- The public field `data` (declared `S | E` on the abstract base,
refined to S on Success and E on Failure), read directly. -/
def data : Result S E → S ⊕ E
  | .Success x => Sum.inl x
  | .Failure e => Sum.inr e

/-- Method throw(): Success does `return this.data`; Failure does
`throw this.data` — the payload itself, not wrapped in any error object. -/
def throw : Result S E → Except E S
  | .Success x => Except.ok x
  | .Failure e => Except.error e

/-- Method throwMap(mapper): Success does `return this.data`; Failure does
`if (typeof mapper === "function") throw mapper(this.data); throw mapper;`.
The thrown value is a string (left) or the callable result (right). -/
def throwMap : Result S E → Mapper E U → Except (String ⊕ U) S
  | .Success x, _ => Except.ok x
  | .Failure e, .ofFn f => Except.error (Sum.inr (f e))
  | .Failure _, .ofString s => Except.error (Sum.inl s)

/-- How many times throwMap applies a callable mapper, read off the same
code paths as `throwMap`: the only call site is `mapper(this.data)` in the
Failure branch, guarded by `typeof mapper === "function"`; the Success
body and the string branch contain no call. -/
def throwMapCalls : Result S E → Mapper E U → Nat
  | .Success _, _ => 0
  | .Failure _, .ofFn _ => 1
  | .Failure _, .ofString _ => 0

/-- Method or(defaultValue): Success does `return this.data`; Failure does
`return defaultValue`.  Neither body contains a throw statement. -/
def or : Result S E → S → Except E S
  | .Success x, _ => Except.ok x
  | .Failure _, d => Except.ok d

/-- Method isOk(): `return true` on Success, `return false` on Failure. -/
def isOk : Result S E → Except E Bool
  | .Success _ => Except.ok true
  | .Failure _ => Except.ok false

/-- Method isErr(): `return false` on Success, `return true` on Failure. -/
def isErr : Result S E → Except E Bool
  | .Success _ => Except.ok false
  | .Failure _ => Except.ok true

/-- Construction `new Success(data)` through Ok, embedded with an arbitrary
thrown-value type T: the constructor body only stores the field and
contains no throw statement. -/
def OkE (T : Type) (x : S) : Except T (Result S E) := Except.ok (Ok x)

/-- Construction `new Failure(error)` through Err, likewise free of any
throw statement. -/
def ErrE (T : Type) (e : E) : Except T (Result S E) := Except.ok (Err e)

/-- One public field write on an instance.  The field `data` is declared
`public` and is not `readonly` on either class, so TypeScript accepts the
assignments `s.data = v` (v : S) on a Success instance and `f.data = v`
(v : E) on a Failure instance; `_tag` is `private readonly` and admits no
write, and no method body contains an assignment.  These two writes are
therefore the only state changes any access path can make. -/
inductive Writes : Result S E → Result S E → Prop where
  | setDataS (x v : S) : Writes (Result.Success x) (Result.Success v)
  | setDataF (e v : E) : Writes (Result.Failure e) (Result.Failure v)

/-- A call of `or` with the instance state threaded explicitly: the method
body performs no field assignment, so the post-state is the pre-state. -/
def orCall (r : Result S E) (d : S) : Except E S × Result S E :=
  (Result.or r d, r)

/-- A call of `isOk` with the instance state threaded explicitly. -/
def isOkCall (r : Result S E) : Except E Bool × Result S E :=
  (Result.isOk r, r)

/-- A call of `isErr` with the instance state threaded explicitly. -/
def isErrCall (r : Result S E) : Except E Bool × Result S E :=
  (Result.isErr r, r)

/-- A call of `throw` with the instance state threaded explicitly. -/
def throwCall (r : Result S E) : Except E S × Result S E :=
  (Result.throw r, r)

/-- A call of `throwMap` with the instance state threaded explicitly. -/
def throwMapCall (r : Result S E) (m : Mapper E U) :
    Except (String ⊕ U) S × Result S E :=
  (Result.throwMap r m, r)

end Result

/-- A JavaScript value as used by the reference sum example: arguments are
typed `any` and the example exercises numbers and strings. -/
inductive JSVal where
  | num (n : Int)
  | str (s : String)
  deriving DecidableEq

/-- The test `typeof v === "number"` of the example. -/
def JSVal.isNumber : JSVal → Bool
  | .num _ => true
  | .str _ => false

/-- JavaScript ToString on these values, as used by `+`. -/
def JSVal.toStr : JSVal → String
  | .num n => toString n
  | .str s => s

/-- JavaScript `+` on these values: numeric addition when both operands are
numbers, otherwise string concatenation after ToString. -/
def jsAdd : JSVal → JSVal → JSVal
  | .num x, .num y => .num (x + y)
  | a, b => .str (a.toStr ++ b.toStr)

/-- The reference end-to-end example, exactly as written in the repository:
`if (typeof a !== "number" && typeof b !== "number")
   return Err("Both arguments are not numbers");
 return Ok(a + b);` -/
def sum (a b : JSVal) : Result JSVal String :=
  if !a.isNumber && !b.isNumber then Err ("Both arguments are not numbers")
  else Ok (jsAdd a b)

/-- C1: every constructed instance answers exactly one of isOk/isErr true:
Ok-constructed instances answer isOk() true, Err-constructed instances
answer isErr() true, and on every instance the two answers are defined and
complementary — never both true, never neither. -/
theorem C1_discriminators_exclusive (S E : Type) :
    (∀ x : S, Result.isOk (Ok x : Result S E) = Except.ok true) ∧
    (∀ e : E, Result.isErr (Err e : Result S E) = Except.ok true) ∧
    (∀ r : Result S E, ∃ b : Bool,
      Result.isOk r = Except.ok b ∧ Result.isErr r = Except.ok (!b)) := by
  refine ⟨fun _ => rfl, fun _ => rfl, fun r => ?_⟩
  cases r with
  | Success x => exact ⟨true, rfl, rfl⟩
  | Failure e => exact ⟨false, rfl, rfl⟩

/-- C2: Ok(x).throw() returns x itself, and Err(e).throw() raises a signal
carrying exactly e, not wrapped or boxed in any error object. -/
theorem C2_throw_passthrough (S E : Type) :
    (∀ x : S, Result.throw (Ok x : Result S E) = Except.ok x) ∧
    (∀ e : E, Result.throw (Err e : Result S E) = Except.error e) :=
  ⟨fun _ => rfl, fun _ => rfl⟩

/-- C3: on a failure instance, throwMap with a callable mapper f raises a
signal carrying exactly f(e) and invokes f exactly once, while throwMap
with a fixed string value m raises a signal carrying exactly m and invokes
nothing. -/
theorem C3_throwMap_failure (S E U : Type) :
    (∀ (e : E) (f : E → U),
      Result.throwMap (Err e : Result S E) (Mapper.ofFn f) =
        Except.error (Sum.inr (f e)) ∧
      Result.throwMapCalls (Err e : Result S E) (Mapper.ofFn f) = 1) ∧
    (∀ (e : E) (m : String),
      Result.throwMap (Err e : Result S E) (Mapper.ofString m : Mapper E U) =
        Except.error (Sum.inl m) ∧
      Result.throwMapCalls (Err e : Result S E)
        (Mapper.ofString m : Mapper E U) = 0) :=
  ⟨fun _ _ => ⟨rfl, rfl⟩, fun _ _ => ⟨rfl, rfl⟩⟩

/-- C4: Ok(x).or(d) returns x, ignoring the default, and Err(e).or(d)
returns d unchanged. -/
theorem C4_or_identity (S E : Type) :
    (∀ (x d : S), Result.or (Ok x : Result S E) d = Except.ok x) ∧
    (∀ (e : E) (d : S), Result.or (Err e : Result S E) d = Except.ok d) :=
  ⟨fun _ _ => rfl, fun _ _ => rfl⟩

/-- C5: Ok(x).throwMap(mapper) returns x for every mapper, callable or not,
and the mapper is applied zero times — the callable is evaluated only in
the failure branch. -/
theorem C5_throwMap_success_frame (S E U : Type) :
    ∀ (x : S) (m : Mapper E U),
      Result.throwMap (Ok x : Result S E) m = Except.ok x ∧
      Result.throwMapCalls (Ok x : Result S E) m = 0 := by
  intro x m
  cases m <;> exact ⟨rfl, rfl⟩

/-- C6: construction via Ok and Err, and the operations isOk, isErr and or,
never raise on either variant for any payload and default (every embedded
body yields Except.ok); throw and throwMap on a success instance also
return normally, so raising occurs only through throw or throwMap on a
failure-variant instance — and there it does occur. -/
theorem C6_raise_only_on_failure_throw (S E U T : Type) :
    (∀ x : S, Result.OkE T x = Except.ok (Ok x : Result S E)) ∧
    (∀ e : E, Result.ErrE T e = Except.ok (Err e : Result S E)) ∧
    (∀ r : Result S E, ∃ b, Result.isOk r = Except.ok b) ∧
    (∀ r : Result S E, ∃ b, Result.isErr r = Except.ok b) ∧
    (∀ (r : Result S E) (d : S), ∃ v, Result.or r d = Except.ok v) ∧
    (∀ x : S, Result.throw (Ok x : Result S E) = Except.ok x) ∧
    (∀ (x : S) (m : Mapper E U),
      Result.throwMap (Ok x : Result S E) m = Except.ok x) ∧
    (∀ e : E, ∃ t, Result.throw (Err e : Result S E) = Except.error t) ∧
    (∀ (e : E) (m : Mapper E U), ∃ t,
      Result.throwMap (Err e : Result S E) m = Except.error t) := by
  refine ⟨fun _ => rfl, fun _ => rfl, ?_, ?_, ?_, fun _ => rfl, ?_, ?_, ?_⟩
  · intro r; cases r <;> exact ⟨_, rfl⟩
  · intro r; cases r <;> exact ⟨_, rfl⟩
  · intro r d; cases r <;> exact ⟨_, rfl⟩
  · intro x m; cases m <;> rfl
  · intro e; exact ⟨e, rfl⟩
  · intro e m; cases m <;> exact ⟨_, rfl⟩

/-- C7 counterexample: the field `data` is public and not readonly, so the
write `s.data = 2` on the instance Ok 1 is a permitted access path, and it
replaces the held payload reference — refuting the part of the claim that
says the payload reference cannot be replaced after construction. -/
theorem C7_data_is_writable :
    Result.Writes (Ok (1 : Int) : Result Int Int) (Ok 2) ∧
    (Ok (2 : Int) : Result Int Int) ≠ Ok 1 :=
  ⟨Result.Writes.setDataS 1 2, by decide⟩

/-- C7 (amended): every instance is permanently one variant — no permitted
public write changes a Success into a Failure or vice versa, and methods
perform no writes at all — even though the payload field itself is
reassignable. -/
theorem C7_variant_permanent (S E : Type) (r r2 : Result S E)
    (h : Result.Writes r r2) :
    Result.isOk r2 = Result.isOk r ∧ Result.isErr r2 = Result.isErr r := by
  cases h <;> exact ⟨rfl, rfl⟩

/-- C7 witness: the concrete write from Ok 1 to Ok 2 preserves both
discriminators. -/
theorem C7_variant_permanent_witness :
    Result.isOk (Ok (2 : Int) : Result Int Int) = Result.isOk (Ok 1) ∧
    Result.isErr (Ok (2 : Int) : Result Int Int) = Result.isErr (Ok 1) :=
  C7_variant_permanent Int Int (Ok 1) (Ok 2) (Result.Writes.setDataS 1 2)

/-- C8: evaluating the reference sum at the documented inputs.  sum(1,2)
is Ok 3 as claimed, but because the guard joins the two typeof tests with
a conjunction, sum("a",2) takes the Ok branch and returns Ok "a2"
(JavaScript string concatenation), not the Err value the claim — and the
repository's own doc examples for throw and or — expect. -/
theorem C8_sum_at_documented_inputs :
    sum (JSVal.num 1) (JSVal.num 2) = Ok (JSVal.num 3) ∧
    sum (JSVal.str ("a")) (JSVal.num 2) = Ok (JSVal.str ("a2")) ∧
    sum (JSVal.str ("a")) (JSVal.num 2) ≠
      Err ("Both arguments are not numbers") := by
  refine ⟨by decide, by decide, by decide⟩

/-- C9: the payload is directly exposed as the public field `data` on both
variants: Ok(x).data is x itself and Err(e).data is e itself, with no
accessor or discriminator call required first. -/
theorem C9_data_field_exposed (S E : Type) :
    (∀ x : S, Result.data (Ok x : Result S E) = Sum.inl x) ∧
    (∀ e : E, Result.data (Err e : Result S E) = Sum.inr e) :=
  ⟨fun _ => rfl, fun _ => rfl⟩

/-- C10: every operation is deterministic and observation-pure: a call
leaves the instance state unchanged, so an immediately repeated call of
isOk, isErr, or with the same default, throw, or throwMap with the same
pure mapper produces the identical outcome. -/
theorem C10_calls_pure_and_repeatable (S E U : Type) :
    (∀ r : Result S E, (Result.isOkCall r).2 = r ∧
      (Result.isOkCall (Result.isOkCall r).2).1 = (Result.isOkCall r).1) ∧
    (∀ r : Result S E, (Result.isErrCall r).2 = r ∧
      (Result.isErrCall (Result.isErrCall r).2).1 = (Result.isErrCall r).1) ∧
    (∀ (r : Result S E) (d : S), (Result.orCall r d).2 = r ∧
      (Result.orCall (Result.orCall r d).2 d).1 = (Result.orCall r d).1) ∧
    (∀ r : Result S E, (Result.throwCall r).2 = r ∧
      (Result.throwCall (Result.throwCall r).2).1 = (Result.throwCall r).1) ∧
    (∀ (r : Result S E) (m : Mapper E U), (Result.throwMapCall r m).2 = r ∧
      (Result.throwMapCall (Result.throwMapCall r m).2 m).1 =
        (Result.throwMapCall r m).1) :=
  ⟨fun _ => ⟨rfl, rfl⟩, fun _ => ⟨rfl, rfl⟩, fun _ _ => ⟨rfl, rfl⟩,
   fun _ => ⟨rfl, rfl⟩, fun _ _ => ⟨rfl, rfl⟩⟩

end Result4js
